import Mathlib

/-!
Shallow embedding of the nkConfigHandler repository
(`confighandler/src/__init__.py`, `_constants.py`, `_models.py`,
`_functions.py`, `configuration.py`).

Rows fetched from the backing table are Python dicts mapping column names
to primitive values; they are embedded as association lists over `PyVal`.
Database and filesystem interaction is embedded as explicit state passing
over an `Env` record, with the sequence of connection/query events made
explicit as a `DbEvent` trace.
-/

namespace ConfigHandler

/-- A primitive Python value as it can appear in a fetched database row:
a string, an int, or a bool (the six columns of `public.nkinitvalues`). -/
inductive PyVal where
  | str : String → PyVal
  | int : Int → PyVal
  | bool : Bool → PyVal
deriving DecidableEq, Repr

/-- A fetched row (`psycopg.rows.dict_row` result): a finite mapping from
column name to value, embedded as an association list (first hit wins). -/
abbrev RowDict := List (String × PyVal)

/-- Python dict-key equality for the integer-keyed dispatch tables:
`True == 1` and `False == 0` in Python, while strings never equal ints.
Returns the integer key a `PyVal` hashes/compares equal to, if any. -/
def pyKeyInt : PyVal → Option Int
  | .str _ => none
  | .int n => some n
  | .bool b => some (if b then 1 else 0)

/-- Python `str()` of a primitive value. -/
def pyStr : PyVal → String
  | .str s => s
  | .int n => toString n
  | .bool b => if b then "True" else "False"

/-- ASCII model of Python `str.lower()`. -/
def pyLower (s : String) : String := String.mk (s.toList.map Char.toLower)

/-! ### Python number parsing (`int(...)` and `locale.atof(...)`) -/

/-- Strip leading and trailing whitespace (Python `str.strip()` as applied
implicitly by `int()` / `float()`). -/
def pyStripChars (cs : List Char) : List Char :=
  ((cs.dropWhile Char.isWhitespace).reverse.dropWhile Char.isWhitespace).reverse

/-- Digit run with Python's underscore rule (a single `_` is allowed only
between two digits).  Accumulates the value and the digit count; consumes
as many digits as possible; fails on a dangling underscore. -/
def digitsUAux : Nat → Nat → List Char → Option (Nat × Nat × List Char)
  | acc, cnt, [] => some (acc, cnt, [])
  | acc, cnt, '_' :: rest =>
    match rest with
    | c :: rest2 =>
      if c.isDigit then digitsUAux (acc * 10 + (c.toNat - 48)) (cnt + 1) rest2 else none
    | [] => none
  | acc, cnt, c :: rest =>
    if c.isDigit then digitsUAux (acc * 10 + (c.toNat - 48)) (cnt + 1) rest
    else some (acc, cnt, c :: rest)

/-- A nonempty digit run (with underscores): value, digit count, rest. -/
def parseUDigits : List Char → Option (Nat × Nat × List Char)
  | c :: rest => if c.isDigit then digitsUAux (c.toNat - 48) 1 rest else none
  | [] => none

/-- Python `int(s)` for a decimal string: optional surrounding whitespace,
optional sign, nonempty digit run, nothing left over. -/
def pyInt (s : String) : Option Int :=
  let core : List Char → Option Int := fun cs =>
    match parseUDigits cs with
    | some (n, _, []) => some (Int.ofNat n)
    | _ => none
  match pyStripChars s.toList with
  | '+' :: rest => core rest
  | '-' :: rest => (core rest).map (fun n => -n)
  | cs => core cs

/-- A Python float value: finite (kept exact as a rational in this model),
an infinity with its sign, or NaN. -/
inductive PyFloat where
  | finite : Rat → PyFloat
  | inf : Bool → PyFloat
  | nan : PyFloat
deriving DecidableEq, Repr

/-- Negation of a Python float. -/
def PyFloat.neg : PyFloat → PyFloat
  | .finite q => .finite (-q)
  | .inf s => .inf (!s)
  | .nan => .nan

/-- Ten to an integer power, as a rational. -/
def pow10 : Int → Rat
  | Int.ofNat n => (10 : Rat) ^ n
  | Int.negSucc n => 1 / (10 : Rat) ^ (n + 1)

/-- Assemble `intpart.fracpart * 10^ex` as a rational. -/
def mkRat10 (ip fp fd : Nat) (ex : Int) : Rat :=
  (((ip : Rat) + (fp : Rat) / (10 : Rat) ^ fd)) * pow10 ex

/-- Mantissa of a Python float literal: `digits [. [digits]]` or `. digits`.
Returns integer part, fraction digits value, fraction digit count, rest. -/
def parseFloatMantissa (cs : List Char) : Option (Nat × Nat × Nat × List Char) :=
  match parseUDigits cs with
  | some (ip, _, rest) =>
    match rest with
    | '.' :: rest2 =>
      match parseUDigits rest2 with
      | some (fp, fd, rest3) => some (ip, fp, fd, rest3)
      | none => some (ip, 0, 0, rest2)
    | _ => some (ip, 0, 0, rest)
  | none =>
    match cs with
    | '.' :: rest2 =>
      match parseUDigits rest2 with
      | some (fp, fd, rest3) => some (0, fp, fd, rest3)
      | none => none
    | _ => none

/-- Optionally signed digit run (float exponent part). -/
def parseSignedUDigits : List Char → Option (Int × List Char)
  | '+' :: rest => (parseUDigits rest).map (fun p => (Int.ofNat p.1, p.2.2))
  | '-' :: rest => (parseUDigits rest).map (fun p => (-(Int.ofNat p.1), p.2.2))
  | cs => (parseUDigits cs).map (fun p => (Int.ofNat p.1, p.2.2))

/-- Unsigned part of Python `float(s)`: `inf`, `infinity`, `nan`
(case-insensitive) or a mantissa with an optional exponent. -/
def pyFloatUnsigned (cs : List Char) : Option PyFloat :=
  let lower := cs.map Char.toLower
  if lower = "inf".toList ∨ lower = "infinity".toList then some (.inf false)
  else if lower = "nan".toList then some .nan
  else
    match parseFloatMantissa cs with
    | none => none
    | some (ip, fp, fd, rest) =>
      match rest with
      | [] => some (.finite (mkRat10 ip fp fd 0))
      | c :: rest2 =>
        if c = 'e' ∨ c = 'E' then
          match parseSignedUDigits rest2 with
          | some (ex, []) => some (.finite (mkRat10 ip fp fd ex))
          | _ => none
        else none

/-- Python `float(s)`. -/
def pyFloat (s : String) : Option PyFloat :=
  match pyStripChars s.toList with
  | '+' :: rest => pyFloatUnsigned rest
  | '-' :: rest => (pyFloatUnsigned rest).map PyFloat.neg
  | cs => pyFloatUnsigned cs

/-- `locale.atof` from `_constants.py`: in the C locale `delocalize` is the
identity, so this is Python `float(...)`. -/
def locale_atof (s : String) : Option PyFloat := pyFloat s

/-! ### `parse_date` (`__init__.py`): `datetime.strptime` over the three
fixed formats, modelled after CPython `_strptime` regular expressions. -/

/-- A naive `datetime` result (what `datetime.strptime` constructs). -/
structure PyDateTime where
  year : Nat
  month : Nat
  day : Nat
  hour : Nat
  minute : Nat
  second : Nat
deriving DecidableEq, Repr

/-- One token of a `strptime` format string: a literal character or one of
the directives `%d % m %Y %H %M %S` used by `parse_date`. -/
inductive Tok where
  | lit : Char → Tok
  | d : Tok
  | m : Tok
  | Y : Tok
  | H : Tok
  | M : Tok
  | S : Tok
deriving DecidableEq, Repr

/-- Partially filled `struct_time` fields, with `strptime` defaults
(year 1900, month 1, day 1, midnight). -/
structure TimeStruct where
  year : Nat
  month : Nat
  day : Nat
  hour : Nat
  minute : Nat
  second : Nat
deriving DecidableEq, Repr

/-- The `strptime` default field values. -/
def strptimeDefaults : TimeStruct := ⟨1900, 1, 1, 0, 0, 0⟩

/-- Store a parsed directive value into the field record. -/
def setTok (t : Tok) (n : Nat) (f : TimeStruct) : TimeStruct :=
  match t with
  | .d => { f with day := n }
  | .m => { f with month := n }
  | .Y => { f with year := n }
  | .H => { f with hour := n }
  | .M => { f with minute := n }
  | .S => { f with second := n }
  | .lit _ => f

/-- `'1' ≤ c ≤ '9'`. -/
def isDigit19 (c : Char) : Bool := decide ('1' ≤ c) && decide (c ≤ '9')

/-- Numeric value of a two-digit character pair. -/
def two (c1 c2 : Char) : Nat := (c1.toNat - 48) * 10 + (c2.toNat - 48)

/-- Two-character alternatives of the CPython `_strptime` regexes, tried
before the one-character alternative (regex alternation order):
`%d = 3[01]|[12]x|0[1-9]`, `%m = 1[0-2]|0[1-9]`, `%H = 2[0-3]|[0-1]x`,
`%M = [0-5]x`, `%S = 6[0-1]|[0-5]x` where `x` is any digit. -/
def tok2 (t : Tok) (c1 c2 : Char) : Option Nat :=
  let ok : Bool :=
    match t with
    | .d => (c1 == '3' && (c2 == '0' || c2 == '1'))
        || ((c1 == '1' || c1 == '2') && c2.isDigit)
        || (c1 == '0' && isDigit19 c2)
    | .m => (c1 == '1' && (c2 == '0' || c2 == '1' || c2 == '2'))
        || (c1 == '0' && isDigit19 c2)
    | .H => (c1 == '2' && (decide ('0' ≤ c2) && decide (c2 ≤ '3')))
        || ((c1 == '0' || c1 == '1') && c2.isDigit)
    | .M => (decide ('0' ≤ c1) && decide (c1 ≤ '5')) && c2.isDigit
    | .S => (c1 == '6' && (c2 == '0' || c2 == '1'))
        || ((decide ('0' ≤ c1) && decide (c1 ≤ '5')) && c2.isDigit)
    | _ => false
  if ok then some (two c1 c2) else none

/-- One-character alternatives of the `_strptime` regexes:
`%d, %m = [1-9]` and `%H, %M, %S =` any digit. -/
def tok1 (t : Tok) (c : Char) : Option Nat :=
  let ok : Bool :=
    match t with
    | .d => isDigit19 c
    | .m => isDigit19 c
    | .H => c.isDigit
    | .M => c.isDigit
    | .S => c.isDigit
    | _ => false
  if ok then some (c.toNat - 48) else none

/-- Backtracking match of a format token list against the whole input
(regex full-match semantics: the two-character alternative of a numeric
directive is preferred, falling back to the one-character alternative;
`%Y` is exactly four digits; leftover input fails). -/
def matchToks : List Tok → List Char → TimeStruct → Option TimeStruct
  | [], cs, f => if cs.isEmpty then some f else none
  | .lit c :: ts, cs, f =>
    match cs with
    | c' :: rest => if c' = c then matchToks ts rest f else none
    | [] => none
  | .Y :: ts, cs, f =>
    match cs with
    | c1 :: c2 :: c3 :: c4 :: rest =>
      if c1.isDigit && c2.isDigit && c3.isDigit && c4.isDigit then
        matchToks ts rest (setTok .Y (two c1 c2 * 100 + two c3 c4) f)
      else none
    | _ => none
  | t :: ts, cs, f =>
    match cs with
    | [] => none
    | c1 :: rest1 =>
      let attempt2 : Option TimeStruct :=
        match rest1 with
        | c2 :: rest2 =>
          match tok2 t c1 c2 with
          | some n => matchToks ts rest2 (setTok t n f)
          | none => none
        | [] => none
      match attempt2 with
      | some r => some r
      | none =>
        match tok1 t c1 with
        | some n => matchToks ts rest1 (setTok t n f)
        | none => none

/-- Gregorian leap year. -/
def isLeapYear (y : Nat) : Bool := (y % 4 = 0 && y % 100 ≠ 0) || y % 400 = 0

/-- Days in a month (datetime calendar). -/
def daysInMonth (y m : Nat) : Nat :=
  if m = 2 then (if isLeapYear y then 29 else 28)
  else if m = 4 ∨ m = 6 ∨ m = 9 ∨ m = 11 then 30 else 31

/-- The `datetime(...)` constructor validation applied by `strptime` to the
matched fields (year 1..9999, valid month/day, time in range). -/
def mkDatetimeChecked (f : TimeStruct) : Option PyDateTime :=
  if 1 ≤ f.year ∧ f.year ≤ 9999 ∧ 1 ≤ f.month ∧ f.month ≤ 12 ∧
      1 ≤ f.day ∧ f.day ≤ daysInMonth f.year f.month ∧
      f.hour ≤ 23 ∧ f.minute ≤ 59 ∧ f.second ≤ 59 then
    some ⟨f.year, f.month, f.day, f.hour, f.minute, f.second⟩
  else none

/-- `datetime.strptime(s, fmt)` for one of the three `parse_date` formats. -/
def strptime (fmt : List Tok) (s : String) : Option PyDateTime :=
  (matchToks fmt s.toList strptimeDefaults).bind mkDatetimeChecked

/-- Format string `%d-%m-%Y %H:%M:%S` (day-month-year hour:minute:second). -/
def fmtDMY_HMS : List Tok :=
  [.d, .lit '-', .m, .lit '-', .Y, .lit ' ', .H, .lit ':', .M, .lit ':', .S]

/-- Format string `%Y-%m-%d %H:%M:%S` (year-month-day hour:minute:second). -/
def fmtYMD_HMS : List Tok :=
  [.Y, .lit '-', .m, .lit '-', .d, .lit ' ', .H, .lit ':', .M, .lit ':', .S]

/-- Format string `%d-%m-%Y` (day-month-year). -/
def fmtDMY : List Tok := [.d, .lit '-', .m, .lit '-', .Y]

/-- The `date_formats` list of `parse_date`, in source order. -/
def date_formats : List (List Tok) := [fmtDMY_HMS, fmtYMD_HMS, fmtDMY]

/-- The `for date_format in date_formats: try ... except ValueError: continue`
loop: first successfully parsing format wins. -/
def tryFormats : List (List Tok) → String → Option PyDateTime
  | [], _ => none
  | fmt :: fmts, s =>
    match strptime fmt s with
    | some d => some d
    | none => tryFormats fmts s

/-- `parse_date` from `confighandler/src/__init__.py`; `none` models the
final `raise ValueError("Date format not recognized ...")`. -/
def parse_date (s : String) : Option PyDateTime := tryFormats date_formats s

/-! ### Errors raised by the embedded code -/

/-- The errors the embedded repository code can raise. -/
inductive PyErr where
  /-- pydantic `ValidationError` from the `all_columns_present` assert,
  message `Column {diff}` carrying the set of missing column names. -/
  | missingColumn : List String → PyErr
  /-- `ValueError("Incompatibile type is given")` from `Row.value`. -/
  | incompatibleType : PyErr
  /-- `ValueError("Failed to convert value '<raw>' with type_id <tid>: ...")`
  wrapping a `ValueError`/`TypeError` from a coercion function. -/
  | conversionFailed : PyVal → PyVal → PyErr
  /-- an `AttributeError` escaping a coercion function uncaught. -/
  | attrError : PyErr
  /-- `RuntimeError("Value conversion failed: ...")` from
  `get_parameter_value`, wrapping the underlying error. -/
  | runtimeWrapped : PyErr → PyErr
  /-- `RuntimeError("No row supplied")` from `get_parameter`. -/
  | emptyRow : PyErr
  /-- pydantic `ValidationError`: a required model field is absent from
  the mapping passed to `model_validate`. -/
  | missingField : String → PyErr
  /-- pydantic `ValidationError`: a model field received a value of the
  wrong type (the `row : dict` field receiving a primitive). -/
  | fieldTypeError : String → PyErr
  /-- Python `KeyError` on a dict subscript. -/
  | keyError : String → PyErr
  /-- `RuntimeError("Section {section} not found in the {filename} file")`
  from `load_config`. -/
  | sectionMissing : String → String → PyErr
  /-- a filesystem `FileNotFoundError` (named by the claims; the embedded
  code never actually produces it, see `load_config`). -/
  | fileNotFound : String → PyErr
  /-- a driver error from `psycopg.connect`, propagated unchanged. -/
  | dbConnectFailure : PyErr
  /-- `ConnectionError("Failed to connect to the database")`. -/
  | connectionError : PyErr
  /-- pydantic `string_too_short` on `appname` (`Field(min_length=5)`) or
  `ValueError("app_name is too short (min 5 chars).")`. -/
  | invalidAppName : PyErr
  /-- `ValueError("Invalid app_name '<name>'. Must be one of: <sorted>")`. -/
  | unknownApp : String → List String → PyErr
  /-- `AttributeError` from `Configuration.__getattr__`. -/
  | attributeNotFound : String → PyErr
  /-- `TypeError` from `sorted(...)` over values of mixed types. -/
  | typeErrorSorted : PyErr
deriving DecidableEq, Repr

/-! ### The type-dispatch tables (`_constants.py`) -/

/-- A coerced configuration value, one of the eight target types of
`TYPE_MAPPERS`, plus `none` for Python `None`. -/
inductive Value where
  | str : String → Value
  | int : Int → Value
  | float : PyFloat → Value
  | bool : Bool → Value
  | strList : List String → Value
  | intList : List Int → Value
  | floatList : List PyFloat → Value
  | date : PyDateTime → Value
  | none : Value
deriving DecidableEq, Repr

/-- How a coercion function (one entry of `TYPE_MAPPERS`) can fail:
with a `ValueError`/`TypeError` (caught and wrapped by `Row.value`) or
with an `AttributeError` (uncaught). -/
inductive MapErr where
  | valueOrType : MapErr
  | attr : MapErr
deriving DecidableEq, Repr

/-- The truthy-token set of the boolean mapper. -/
def TRUTHY : List String := ["y", "yes", "t", "true", "on", "1", "ja"]

/-- `int(val) for val in ...`: all-or-nothing integer parsing of a list. -/
def mapIntList : List String → Option (List Int)
  | [] => some []
  | s :: rest =>
    match pyInt s with
    | some n => (mapIntList rest).map (n :: ·)
    | none => none

/-- `locale.atof(val) for val in ...`. -/
def mapFloatList : List String → Option (List PyFloat)
  | [] => some []
  | s :: rest =>
    match locale_atof s with
    | some q => (mapFloatList rest).map (q :: ·)
    | none => none

/-- `TYPE_MAPPERS[1] = str`: never fails. -/
def mapper1 (v : PyVal) : Except MapErr Value := .ok (.str (pyStr v))

/-- `TYPE_MAPPERS[2] = int`: `ValueError` on an unparsable string. -/
def mapper2 : PyVal → Except MapErr Value
  | .str s =>
    match pyInt s with
    | some n => .ok (.int n)
    | none => .error .valueOrType
  | .int n => .ok (.int n)
  | .bool b => .ok (.int (if b then 1 else 0))

/-- `TYPE_MAPPERS[3] = locale.atof`: `ValueError` on an unparsable string,
`AttributeError` on a non-string. -/
def mapper3 : PyVal → Except MapErr Value
  | .str s =>
    match locale_atof s with
    | some q => .ok (.float q)
    | none => .error .valueOrType
  | _ => .error .attr

/-- `TYPE_MAPPERS[4] = lambda x: x.lower() in ("y","yes","t","true","on","1","ja")`:
never a `ValueError`, `AttributeError` on a non-string. -/
def mapper4 : PyVal → Except MapErr Value
  | .str s => .ok (.bool (TRUTHY.contains (pyLower s)))
  | _ => .error .attr

/-- `TYPE_MAPPERS[5] = lambda x: x.split(",")`. -/
def mapper5 : PyVal → Except MapErr Value
  | .str s => .ok (.strList (s.splitOn ","))
  | _ => .error .attr

/-- `TYPE_MAPPERS[6] = lambda x: [int(val) for val in x.split(",")]`. -/
def mapper6 : PyVal → Except MapErr Value
  | .str s =>
    match mapIntList (s.splitOn ",") with
    | some l => .ok (.intList l)
    | none => .error .valueOrType
  | _ => .error .attr

/-- `TYPE_MAPPERS[7] = lambda x: [locale.atof(val) for val in x.split(",")]`. -/
def mapper7 : PyVal → Except MapErr Value
  | .str s =>
    match mapFloatList (s.splitOn ",") with
    | some l => .ok (.floatList l)
    | none => .error .valueOrType
  | _ => .error .attr

/-- `TYPE_MAPPERS[8] = parse_date`: `ValueError` when no format matches,
`TypeError` (also caught) on a non-string argument. -/
def mapper8 : PyVal → Except MapErr Value
  | .str s =>
    match parse_date s with
    | some d => .ok (.date d)
    | none => .error .valueOrType
  | _ => .error .valueOrType

/-- `TYPE_MAPPERS.get(k)`: the coercion dictionary keyed by 1..8. -/
def TYPE_MAPPERS_get (k : Int) : Option (PyVal → Except MapErr Value) :=
  match k with
  | 1 => some mapper1
  | 2 => some mapper2
  | 3 => some mapper3
  | 4 => some mapper4
  | 5 => some mapper5
  | 6 => some mapper6
  | 7 => some mapper7
  | 8 => some mapper8
  | _ => none

/-- The semantic types of `TYPE_DEFINITIONS`, plus `noneType` for the
`type(None)` default of `Row.value_type`. -/
inductive SemType where
  | pyStr | pyInt | pyFloat | pyBool
  | listStr | listInt | listFloat | pyDatetime
  | noneType
deriving DecidableEq, Repr

/-- `TYPE_DEFINITIONS.get(k)`: the semantic-type dictionary keyed by 1..8. -/
def TYPE_DEFINITIONS_get (k : Int) : Option SemType :=
  match k with
  | 1 => some .pyStr
  | 2 => some .pyInt
  | 3 => some .pyFloat
  | 4 => some .pyBool
  | 5 => some .listStr
  | 6 => some .listInt
  | 7 => some .listFloat
  | 8 => some .pyDatetime
  | _ => none

/-! ### The row model (`_models.py`) and `EXPECTED_COLUMNS` -/

/-- `EXPECTED_COLUMNS` from `__init__.py`. -/
def EXPECTED_COLUMNS : List String :=
  ["id", "name", "description", "type_id", "value", "debugmode"]

/-- `EXPECTED_COLUMNS - set(v.keys())`: the expected columns absent from
the row. -/
def missingColumns (row : RowDict) : List String :=
  EXPECTED_COLUMNS.filter (fun c => (row.lookup c).isNone)

/-- The `all_columns_present` field validator: asserts no expected column
is missing, the assertion message naming the missing set. -/
def all_columns_present (v : RowDict) : Except PyErr RowDict :=
  if missingColumns v = [] then .ok v
  else .error (.missingColumn (missingColumns v))

/-- The pydantic `Row` model: a validated wrapper around the raw dict. -/
structure Row where
  row : RowDict
deriving DecidableEq, Repr

/-- `Row(row=...)` keyword construction: the `row` field is supplied
directly, so pydantic field validation runs the `all_columns_present`
validator on it; the computed fields are evaluated lazily on attribute
access, not at construction. -/
def Row.new (r : RowDict) : Except PyErr Row :=
  (all_columns_present r).map Row.mk

/-- `Row.model_validate(d)` (pydantic v2): `d` itself is validated against
the model's fields.  `Row` declares one required field `row : dict`, and a
bare column mapping has no `row` key, so validation fails with a
missing-field error naming the field `row` (`extra="allow"` admits the
unknown keys but does not satisfy the required field); a `row` key holding
a primitive column value fails the `dict` type check instead.  The
`all_columns_present` column validator never runs on this path. -/
def Row.model_validate (d : RowDict) : Except PyErr Row :=
  match d.lookup "row" with
  | none => .error (.missingField "row")
  | some _ => .error (.fieldTypeError "row")

/-- The `name` computed field: `self.row["name"]`. -/
def Row.name (r : Row) : Except PyErr PyVal :=
  match r.row.lookup "name" with
  | some v => .ok v
  | none => .error (.keyError "name")

/-- The `value_type` computed field:
`TYPE_DEFINITIONS.get(self.row["type_id"], type(None))` — note the
`type(None)` fallback for an unmapped `type_id`. -/
def Row.value_type (r : Row) : Except PyErr SemType :=
  match r.row.lookup "type_id" with
  | some tid => .ok (((pyKeyInt tid).bind TYPE_DEFINITIONS_get).getD .noneType)
  | none => .error (.keyError "type_id")

/-- The `value` computed field: looks up the mapper by `type_id` (hard
`ValueError` if absent), applies it to `self.row["value"]`, and wraps a
`ValueError`/`TypeError` of the mapper into a conversion-failure
`ValueError` naming the raw value and the `type_id`. -/
def Row.value (r : Row) : Except PyErr Value :=
  match r.row.lookup "type_id" with
  | none => .error (.keyError "type_id")
  | some tid =>
    match (pyKeyInt tid).bind TYPE_MAPPERS_get with
    | none => .error .incompatibleType
    | some mapper =>
      match r.row.lookup "value" with
      | none => .error (.keyError "value")
      | some raw =>
        match mapper raw with
        | .ok v => .ok v
        | .error .valueOrType => .error (.conversionFailed raw tid)
        | .error .attr => .error .attrError

/-! ### `_functions.py`: the database layer, with explicit state and an
explicit trace of connection/query events -/

/-- One key/value section of an INI file. -/
abbrev IniSection := List (String × String)

/-- A parsed INI file: named sections. -/
abbrev IniFile := List (String × IniSection)

/-- The external world: the filesystem (filename to INI content; a name
absent from the list is a missing file), the rows of the backing table
`public.nkinitvalues`, and whether `psycopg.connect` succeeds. -/
structure Env where
  fs : List (String × IniFile)
  db : List RowDict
  connectOk : Bool
deriving Repr

/-- Observable database lifecycle events of one logical call. -/
inductive DbEvent where
  | openConn : DbEvent
  | query : String → String → List (String × PyVal) → DbEvent
  | closeConn : DbEvent
deriving DecidableEq, Repr

/-- Number of connection-close events in a trace. -/
def countClose : List DbEvent → Nat
  | [] => 0
  | DbEvent.closeConn :: tr => countClose tr + 1
  | _ :: tr => countClose tr

/-- `configparser.ConfigParser.read(filename)`: a file that cannot be
opened is silently skipped (documented configparser behaviour), leaving
the parser empty; it does not raise `FileNotFoundError`. -/
def configParserRead (fs : List (String × IniFile)) (filename : String) : IniFile :=
  (fs.lookup filename).getD []

/-- `load_config` from `_functions.py`: read the INI file (a missing file
yields an empty parser, see `configParserRead`), then return the items of
the section, or raise the section-not-found `RuntimeError`.  The
`except FileNotFoundError` clause of the source is dead code, so no
`fileNotFound` error is ever produced. -/
def load_config (fs : List (String × IniFile)) (filename : String) (sect : String) :
    Except PyErr IniSection :=
  let parser := configParserRead fs filename
  match parser.lookup sect with
  | some items => .ok items
  | none => .error (.sectionMissing sect filename)

/-- `connect`: open a fresh connection via the driver; a driver failure is
propagated unchanged.  A successful `psycopg.Connection` object is always
truthy.  Emits an open-connection event on success. -/
def connect (env : Env) : Except PyErr Unit × List DbEvent :=
  if env.connectOk then (.ok (), [.openConn]) else (.error .dbConnectFailure, [])

/-- `WHERE k1 = v1 AND k2 = v2 ...` equality filtering of one row. -/
def matchesConds (conds : List (String × PyVal)) (row : RowDict) : Bool :=
  conds.all (fun kv => decide (row.lookup kv.1 = some kv.2))

/-- `select_with_conditions`: `SELECT * FROM schema.table` with an optional
conjunction of equality conditions; returns all matching rows and emits a
query event.  The cursor (not the connection) is scoped by `with`. -/
def select_with_conditions (env : Env) (schema table : String)
    (conds : List (String × PyVal)) : List RowDict × List DbEvent :=
  (if conds.isEmpty then env.db else env.db.filter (matchesConds conds),
   [.query schema table conds])

/-- A `Parameter` (name/value pair) from `_functions.py`. -/
structure Parameter where
  parameter : PyVal
  value : Value
deriving DecidableEq, Repr

/-- `get_parameter`: `RuntimeError` on an empty row; otherwise calls
`Row.model_validate(dict(row))`, which fails for every bare column
mapping (missing required field `row`), so the name/value extraction
after it is unreachable; errors are re-raised unchanged. -/
def get_parameter (row : RowDict) : Except PyErr Parameter :=
  if row = [] then .error .emptyRow
  else do
    let rm ← Row.model_validate row
    let n ← rm.name
    let v ← rm.value
    pure ⟨n, v⟩

/-- `get_parameter_value`: `None` for an empty row, otherwise construct
`Row(row=row_data)` (running the column validation) and coerce, wrapping
any error into `RuntimeError("Value conversion failed: ...")`. -/
def get_parameter_value (row : RowDict) : Except PyErr Value :=
  if row = [] then .ok .none
  else
    match Row.new row >>= Row.value with
    | .ok v => .ok v
    | .error e => .error (.runtimeWrapped e)

/-- `[result["id"] for result in results]`, left to right; `KeyError` at
the first row lacking an `id` column. -/
def collectIds : List RowDict → Except PyErr (List PyVal)
  | [] => .ok []
  | r :: rs =>
    match r.lookup "id" with
    | none => .error (.keyError "id")
    | some v => (collectIds rs).map (v :: ·)

/-- `get_unique_app_names`: load the INI config, connect, select all rows
unfiltered, and return the set of `id` values (`set(...)`, embedded as a
deduplicated list).  No close event is ever emitted: the source never
closes the connection. -/
def get_unique_app_names (env : Env) (ini_file : String) :
    Except PyErr (List PyVal) × List DbEvent :=
  match load_config env.fs ini_file "postgresql" with
  | .error e => (.error e, [])
  | .ok _config =>
    match connect env with
    | (.error e, tr) => (.error e, tr)
    | (.ok _, tr) =>
      let (results, tr2) := select_with_conditions env "public" "nkinitvalues" []
      match collectIds results with
      | .error e => (.error e, tr ++ tr2)
      | .ok ids => (.ok ids.dedup, tr ++ tr2)

/-- Python dict assignment `m[k] = v`: replace in place or append. -/
def dictInsert : List (PyVal × Value) → PyVal → Value → List (PyVal × Value)
  | [], k, v => [(k, v)]
  | (k', v') :: rest, k, v =>
    if k' = k then (k, v) :: rest else (k', v') :: dictInsert rest k v

/-- Python dict lookup over `PyVal` keys. -/
def dictLookup : List (PyVal × Value) → PyVal → Option Value
  | [], _ => none
  | (k, v) :: rest, k' => if k = k' then some v else dictLookup rest k'

/-- The `for row in rows: constants[row["name"]] = get_parameter_value(row)`
loop of `get_config` (right-hand side evaluated first, so a coercion error
aborts before the `name` subscript). -/
def aggregate : List RowDict → List (PyVal × Value) →
    Except PyErr (List (PyVal × Value))
  | [], acc => .ok acc
  | r :: rs, acc =>
    match get_parameter_value r with
    | .error e => .error e
    | .ok v =>
      match r.lookup "name" with
      | none => .error (.keyError "name")
      | some n => aggregate rs (dictInsert acc n v)

/-- `get_config`: for a non-empty application name, load the INI config,
connect, select the rows filtered by `id` and `debugmode`, and aggregate
name to coerced value; otherwise return the empty dict untouched.  The
connection is never closed. -/
def get_config (env : Env) (appname : Option String) (debugging : Bool)
    (ini_file : String) : Except PyErr (List (PyVal × Value)) × List DbEvent :=
  match appname with
  | some an =>
    if an.length > 0 then
      match load_config env.fs ini_file "postgresql" with
      | .error e => (.error e, [])
      | .ok _config =>
        match connect env with
        | (.error e, tr) => (.error e, tr)
        | (.ok _, tr) =>
          let (rows, tr2) := select_with_conditions env "public" "nkinitvalues"
            [("id", .str an), ("debugmode", .bool debugging)]
          match aggregate rows [] with
          | .error e => (.error e, tr ++ tr2)
          | .ok m => (.ok m, tr ++ tr2)
    else (.ok [], [])
  | none => (.ok [], [])

/-- The `for result in results` loop of `get_initial_values`; a
`Parameter` object is always truthy, so every result is appended. -/
def collectParams : List RowDict → Except PyErr (List Parameter)
  | [] => .ok []
  | r :: rs =>
    match get_parameter r with
    | .error e => .error e
    | .ok p => (collectParams rs).map (p :: ·)

/-- `get_initial_values`: as `get_config` but returning a `Parameter` list,
and `None` (not an error, not an empty list) for an empty or `None`
application name; always reads `database.ini`.  The connection is never
closed. -/
def get_initial_values (env : Env) (appname : Option String) (debugging : Bool) :
    Except PyErr (Option (List Parameter)) × List DbEvent :=
  match appname with
  | some an =>
    if an.length > 0 then
      match load_config env.fs "database.ini" "postgresql" with
      | .error e => (.error e, [])
      | .ok _config =>
        match connect env with
        | (.error e, tr) => (.error e, tr)
        | (.ok _, tr) =>
          let (results, tr2) := select_with_conditions env "public" "nkinitvalues"
            [("id", .str an), ("debugmode", .bool debugging)]
          match collectParams results with
          | .error e => (.error e, tr ++ tr2)
          | .ok ps => (.ok (some ps), tr ++ tr2)
    else (.ok Option.none, [])
  | none => (.ok Option.none, [])

/-! ### `ConfigurationModel` and the `Configuration` facade -/

/-- Insert a string into a `≤`-sorted list, keeping it sorted. -/
def insertSorted (s : String) : List String → List String
  | [] => [s]
  | t :: ts => if s ≤ t then s :: t :: ts else t :: insertSorted s ts

/-- Python `sorted(...)` over strings (lexicographic insertion sort). -/
def sortStrings (l : List String) : List String := l.foldr insertSorted []

/-- Are all values strings?  Python `sorted` over a set of mixed-type
values raises `TypeError`; over strings it succeeds. -/
def allStrings : List PyVal → Option (List String)
  | [] => some []
  | .str s :: rest => (allStrings rest).map (s :: ·)
  | _ :: _ => none

/-- `sorted(allowed)` where `allowed` is the set of distinct ids. -/
def sortedDistinctIds (ids : List PyVal) : Except PyErr (List String) :=
  match allStrings ids with
  | some ss => .ok (sortStrings ss)
  | none => .error .typeErrorSorted

/-- The validated `ConfigurationModel` (pydantic). -/
structure ConfigurationModel where
  appname : String
  debugging : Bool
  ini_file : String
deriving DecidableEq, Repr

/-- `ConfigurationModel(...)` validation: first the pydantic field check
`appname: str = Field(min_length=5)`; only if fields validate does the
`app_name_must_be_known` model validator (mode after) run, which re-checks
the length and then queries the distinct stored app names. -/
def ConfigurationModel.validate (env : Env) (appname : String) (debugging : Bool)
    (ini_file : String) : Except PyErr ConfigurationModel × List DbEvent :=
  if appname.length < 5 then (.error .invalidAppName, [])
  else
    -- app_name_must_be_known: the re-check of the length is dead code here
    -- (field validation already rejected shorter names)
    if appname.length < 5 then (.error .invalidAppName, [])
    else
      match get_unique_app_names env ini_file with
      | (.error e, tr) => (.error e, tr)
      | (.ok allowed, tr) =>
        if PyVal.str appname ∈ allowed then
          (.ok ⟨appname, debugging, ini_file⟩, tr)
        else
          match sortedDistinctIds allowed with
          | .ok known => (.error (.unknownApp appname known), tr)
          | .error e => (.error e, tr)

/-- The `Configuration` facade object (`configuration.py`). -/
structure Configuration where
  named_attributes : Bool
  initialized : Bool
  ini_file : String
  validation_model : ConfigurationModel
  configs : List (PyVal × Value)
deriving Repr

/-- `Configuration.__init__`: validate the inputs through
`ConfigurationModel` (which may query the distinct app names), then load
the aggregated mapping through `get_config`.  A validation or load error
aborts construction. -/
def Configuration.build (env : Env) (appname : String) (debugging : Bool)
    (named_attributes : Bool) (ini_file : String) :
    Except PyErr Configuration × List DbEvent :=
  match ConfigurationModel.validate env appname debugging ini_file with
  | (.error e, tr) => (.error e, tr)
  | (.ok vm, tr) =>
    match get_config env (some appname) debugging ini_file with
    | (.error e, tr2) => (.error e, tr ++ tr2)
    | (.ok cfg, tr2) => (.ok ⟨named_attributes, true, ini_file, vm, cfg⟩, tr ++ tr2)

/-- `Configuration.__getattr__`: return the aggregated value for a present
name, raise `AttributeError` for an absent one. -/
def Configuration.getattr (c : Configuration) (name : String) : Except PyErr Value :=
  match dictLookup c.configs (.str name) with
  | some v => .ok v
  | none => .error (.attributeNotFound name)

/-! ### Derived notions used by the theorems -/

/-- The rows `get_config` fetches for one application/debug scope. -/
def fetchedRows (env : Env) (an : String) (dbg : Bool) : List RowDict :=
  (select_with_conditions env "public" "nkinitvalues"
    [("id", .str an), ("debugmode", .bool dbg)]).1

/-- The last row of the sequence whose `name` column equals `n`. -/
def lastNamed (rows : List RowDict) (n : PyVal) : Option RowDict :=
  match rows with
  | [] => none
  | r :: rest =>
    match lastNamed rest n with
    | some x => some x
    | none => if r.lookup "name" = some n then some r else none

/-- Successful result of a coercion, if any. -/
def okValue : Except PyErr Value → Option Value
  | .ok v => some v
  | .error _ => none

/-! ### Concrete inputs used by counterexamples and witnesses -/

/-- A fully-columned row whose `type_id` 99 has no dispatch entry. -/
def row99 : RowDict :=
  [("id", .str "appone"), ("name", .str "p99"), ("description", .str ""),
   ("type_id", .int 99), ("value", .str "x"), ("debugmode", .bool false)]

/-- A row lacking only the `debugmode` column, with a string `type_id`
whose coercion would never read `debugmode`. -/
def rowMissingDebug : RowDict :=
  [("id", .str "appone"), ("name", .str "p1"), ("description", .str ""),
   ("type_id", .int 1), ("value", .str "v")]

/-- A fully-columned date row whose raw value matches no date format. -/
def rowBadDate : RowDict :=
  [("id", .str "appone"), ("name", .str "d1"), ("description", .str ""),
   ("type_id", .int 8), ("value", .str "not-a-date"), ("debugmode", .bool false)]

/-- An INI filesystem holding a conventional `database.ini`. -/
def fsW : List (String × IniFile) :=
  [("database.ini", [("postgresql", [("host", "localhost"), ("dbname", "nk")])])]

/-- An environment with one stored integer parameter for `appone`. -/
def envW : Env :=
  ⟨fsW,
   [[("id", .str "appone"), ("name", .str "p1"), ("description", .str ""),
     ("type_id", .int 2), ("value", .str "42"), ("debugmode", .bool false)]],
   true⟩

/-- An environment with two rows sharing the name `p1` under the same
application/debug scope (values 1 and 2, in that order). -/
def envDup : Env :=
  ⟨fsW,
   [[("id", .str "appone"), ("name", .str "p1"), ("description", .str ""),
     ("type_id", .int 2), ("value", .str "1"), ("debugmode", .bool false)],
    [("id", .str "appone"), ("name", .str "p1"), ("description", .str ""),
     ("type_id", .int 2), ("value", .str "2"), ("debugmode", .bool false)]],
   true⟩

/-- An environment whose table holds the distinct ids beta and alpha. -/
def envIds : Env :=
  ⟨fsW,
   [[("id", .str "beta")], [("id", .str "alpha")], [("id", .str "beta")]],
   true⟩

/-- The event trace of a successful `get_config` call for `appone`. -/
def trGet : List DbEvent :=
  [.openConn, .query "public" "nkinitvalues"
    [("id", .str "appone"), ("debugmode", .bool false)]]

/-- The event trace of a successful facade construction for `appone`:
one connection for the app-name query, one for the row fetch. -/
def trBuild : List DbEvent :=
  [.openConn, .query "public" "nkinitvalues" [],
   .openConn, .query "public" "nkinitvalues"
    [("id", .str "appone"), ("debugmode", .bool false)]]

/-- The facade `Configuration.build` constructs from `envW`. -/
def cW : Configuration :=
  ⟨false, true, "database.ini", ⟨"appone", false, "database.ini"⟩,
   [(.str "p1", .int 42)]⟩

/-! ### Helper lemmas -/

/-- The two dispatch dictionaries have the same key set: a `type_id`
without a coercion function also has no semantic type. -/
theorem defs_none_of_mappers_none (k : Int) (h : TYPE_MAPPERS_get k = none) :
    TYPE_DEFINITIONS_get k = none := by
  unfold TYPE_MAPPERS_get at h
  unfold TYPE_DEFINITIONS_get
  split at h <;> simp_all

/-- Looking a key up after a dict assignment. -/
theorem dictLookup_dictInsert (acc : List (PyVal × Value)) (k n : PyVal) (v : Value) :
    dictLookup (dictInsert acc k v) n = if k = n then some v else dictLookup acc n := by
  induction acc with
  | nil => simp [dictInsert, dictLookup]
  | cons p rest ih =>
    obtain ⟨k', v'⟩ := p
    by_cases hk : k' = k
    · subst hk
      by_cases hn : k' = n <;> simp [dictInsert, dictLookup, hn]
    · by_cases hn : k' = n
      · subst hn
        have hkn : ¬k = k' := fun hh => hk hh.symm
        simp [dictInsert, dictLookup, hk, hkn]
      · simp [dictInsert, dictLookup, hk, hn, ih]

/-- If some row of the sequence carries name `n`, a last such row exists. -/
theorem lastNamed_isSome_of_mem (rows : List RowDict) (r : RowDict) (n : PyVal)
    (hmem : r ∈ rows) (hname : r.lookup "name" = some n) :
    (lastNamed rows n).isSome := by
  induction rows with
  | nil => cases hmem
  | cons r0 rest ih =>
    rcases List.mem_cons.mp hmem with heq | hmem
    · subst heq
      unfold lastNamed
      rcases hl : lastNamed rest n with _ | x
      · simp [hname]
      · simp
    · have := ih hmem
      unfold lastNamed
      rcases hl : lastNamed rest n with _ | x
      · rw [hl] at this; cases this
      · simp

/-- A successful aggregation coerced the last row of each name. -/
theorem aggregate_ok_last (rows : List RowDict) :
    ∀ acc m, aggregate rows acc = .ok m → ∀ n r', lastNamed rows n = some r' →
      ∃ v, get_parameter_value r' = .ok v := by
  induction rows with
  | nil => intro acc m _ n r' hl; simp [lastNamed] at hl
  | cons r rest ih =>
    intro acc m h n r' hl
    unfold aggregate at h
    rcases hg : get_parameter_value r with e | v <;> rw [hg] at h
    · cases h
    · rcases hn : r.lookup "name" with _ | n0 <;> rw [hn] at h
      · cases h
      · unfold lastNamed at hl
        rcases hlr : lastNamed rest n with _ | x <;> rw [hlr] at hl
        · by_cases hEq : r.lookup "name" = some n
          · rw [if_pos hEq] at hl
            cases hl
            exact ⟨v, hg⟩
          · rw [if_neg hEq] at hl; cases hl
        · cases hl
          exact ih _ _ h n r' hlr

/-- The aggregated mapping looks up to the coerced value of the last row
with that name, falling back to the accumulator. -/
theorem aggregate_lookup (rows : List RowDict) :
    ∀ acc m, aggregate rows acc = .ok m → ∀ n,
      dictLookup m n =
        match lastNamed rows n with
        | some r => okValue (get_parameter_value r)
        | none => dictLookup acc n := by
  induction rows with
  | nil =>
    intro acc m h n
    unfold aggregate at h
    cases h
    simp [lastNamed]
  | cons r rest ih =>
    intro acc m h n
    unfold aggregate at h
    rcases hg : get_parameter_value r with e | v <;> rw [hg] at h
    · cases h
    · rcases hn : r.lookup "name" with _ | n0 <;> rw [hn] at h
      · cases h
      · have hres := ih _ _ h n
        unfold lastNamed
        rcases hlr : lastNamed rest n with _ | x <;> rw [hlr] at hres
        · rw [hres, dictLookup_dictInsert]
          by_cases hEq : n0 = n
          · subst hEq
            simp [hn, hg, okValue]
          · have : ¬r.lookup "name" = some n := by
              rw [hn]; intro hc; exact hEq (Option.some.inj hc)
            simp [hEq, this]
        · simpa using hres

/-- Inserting into a list is a permutation of consing. -/
theorem insertSorted_perm (s : String) (l : List String) :
    List.Perm (insertSorted s l) (s :: l) := by
  induction l with
  | nil => exact List.Perm.refl _
  | cons t ts ih =>
    unfold insertSorted
    by_cases h : s ≤ t
    · rw [if_pos h]
    · rw [if_neg h]
      exact (ih.cons t).trans (List.Perm.swap s t ts)

/-- `sortStrings` permutes its input. -/
theorem sortStrings_perm (l : List String) : List.Perm (sortStrings l) l := by
  induction l with
  | nil => exact List.Perm.refl _
  | cons s ts ih => exact (insertSorted_perm s (sortStrings ts)).trans (ih.cons s)

/-- Inserting into a sorted list keeps it sorted. -/
theorem insertSorted_sorted (s : String) (l : List String)
    (h : l.Sorted (· ≤ ·)) : (insertSorted s l).Sorted (· ≤ ·) := by
  induction l with
  | nil => simp [insertSorted]
  | cons t ts ih =>
    rw [List.sorted_cons] at h
    unfold insertSorted
    by_cases hle : s ≤ t
    · rw [if_pos hle, List.sorted_cons]
      refine ⟨?_, ?_⟩
      · intro b hb
        rcases List.mem_cons.mp hb with rfl | hb
        · exact hle
        · exact hle.trans (h.1 b hb)
      · rw [List.sorted_cons]
        exact h
    · rw [if_neg hle, List.sorted_cons]
      refine ⟨?_, ih h.2⟩
      intro b hb
      rcases List.mem_cons.mp ((insertSorted_perm s ts).mem_iff.mp hb) with rfl | hb2
      · exact le_of_not_le hle
      · exact h.1 b hb2

/-- `sortStrings` sorts. -/
theorem sortStrings_sorted (l : List String) : (sortStrings l).Sorted (· ≤ ·) := by
  induction l with
  | nil => simp [sortStrings]
  | cons s ts ih => exact insertSorted_sorted s (sortStrings ts) ih

/-- Membership transfer along `allStrings`. -/
theorem allStrings_mem (l : List PyVal) (ss : List String)
    (h : allStrings l = some ss) (s : String) : s ∈ ss ↔ PyVal.str s ∈ l := by
  induction l generalizing ss with
  | nil =>
    simp only [allStrings, Option.some.injEq] at h
    subst h
    simp
  | cons v rest ih =>
    cases v with
    | str t =>
      unfold allStrings at h
      rcases hr : allStrings rest with _ | ss' <;> rw [hr] at h
      · simp at h
      · simp at h
        subst h
        simp [ih ss' hr]
    | int n => exact Option.noConfusion h
    | bool b => exact Option.noConfusion h

/-- Distinctness transfer along `allStrings`. -/
theorem allStrings_nodup (l : List PyVal) (ss : List String)
    (h : allStrings l = some ss) (hnd : l.Nodup) : ss.Nodup := by
  induction l generalizing ss with
  | nil =>
    simp only [allStrings, Option.some.injEq] at h
    subst h
    simp
  | cons v rest ih =>
    cases v with
    | str t =>
      unfold allStrings at h
      rcases hr : allStrings rest with _ | ss' <;> rw [hr] at h
      · simp at h
      · simp at h
        subst h
        rw [List.nodup_cons] at hnd ⊢
        refine ⟨?_, ih ss' hr hnd.2⟩
        intro hc
        exact hnd.1 ((allStrings_mem rest ss' hr t).mp hc)
    | int n => exact Option.noConfusion h
    | bool b => exact Option.noConfusion h

/-- A successful `get_config` run aggregated exactly the fetched rows. -/
theorem get_config_ok_aggregate (env : Env) (an : String) (dbg : Bool) (ini : String)
    (m : List (PyVal × Value)) (tr : List DbEvent)
    (hlen : an.length > 0)
    (h : get_config env (some an) dbg ini = (.ok m, tr)) :
    aggregate (fetchedRows env an dbg) [] = .ok m := by
  unfold get_config at h
  dsimp only at h
  rw [if_pos hlen] at h
  split at h
  · simp at h
  · split at h
    · simp at h
    · dsimp only [select_with_conditions] at h
      split at h
      · simp at h
      · rename_i ha
        simp only [Prod.mk.injEq, Except.ok.injEq] at h
        rw [← h.1]
        simpa [fetchedRows, select_with_conditions] using ha

/-! ### C1 -/

/-- C1 counterexample: for the fully-columned row `row99`, whose `type_id`
99 has no entry in the type-dispatch table, the get-semantic-type
operation `Row.value_type` does not fail: it silently returns the
`type(None)` fallback (while `Row.value` does fail hard).  This refutes
the claim that both operations fail with an incompatible-type error. -/
theorem c1_value_type_fallback_counterexample :
    Row.value_type ⟨row99⟩ = .ok SemType.noneType ∧
    Row.value ⟨row99⟩ = .error .incompatibleType := ⟨rfl, rfl⟩

/-- C1 (amended): for every row whose `type_id` has no entry in the
type-dispatch table, the get-coerced-value operation `Row.value` fails
with the hard incompatible-type error (never passing the raw string
through), while the get-semantic-type operation `Row.value_type` does not
fail but silently returns the `NoneType` fallback. -/
theorem c1_unmapped_type_id (r : RowDict) (tid : PyVal)
    (htid : r.lookup "type_id" = some tid)
    (hun : (pyKeyInt tid).bind TYPE_MAPPERS_get = none) :
    Row.value ⟨r⟩ = .error .incompatibleType ∧
    Row.value_type ⟨r⟩ = .ok SemType.noneType := by
  constructor
  · unfold Row.value
    rw [htid]
    dsimp only
    rw [hun]
  · unfold Row.value_type
    rw [htid]
    dsimp only
    rcases hk : pyKeyInt tid with _ | k
    · rfl
    · have hm : TYPE_MAPPERS_get k = none := by
        rw [hk] at hun
        simpa using hun
      simp [defs_none_of_mappers_none k hm]

/-- C1 witness: the amended statement evaluated at `row99`. -/
theorem c1_unmapped_type_id_witness :
    Row.value ⟨row99⟩ = .error .incompatibleType ∧
    Row.value_type ⟨row99⟩ = .ok SemType.noneType :=
  c1_unmapped_type_id row99 (.int 99) rfl rfl

/-! ### C2 -/

/-- C2: every row whose field-name set is not a superset of
`EXPECTED_COLUMNS` is rejected by the `all_columns_present` row
validation (run by the `Row(row=...)` construction) with a missing-column
error naming exactly the missing fields; on the `get_parameter_value`
extraction path this validation runs unconditionally before any coercion
is attempted — regardless of the row's `type_id` or raw value — so the
wrapped error still names exactly the missing fields. -/
theorem c2_missing_columns (r : RowDict) (h : missingColumns r ≠ []) :
    Row.new r = .error (.missingColumn (missingColumns r)) ∧
    (∀ c, c ∈ missingColumns r ↔ c ∈ EXPECTED_COLUMNS ∧ r.lookup c = none) ∧
    (r ≠ [] →
      get_parameter_value r
        = .error (.runtimeWrapped (.missingColumn (missingColumns r)))) := by
  have hv : Row.new r = .error (.missingColumn (missingColumns r)) := by
    simp [Row.new, all_columns_present, h, Except.map]
  refine ⟨hv, ?_, ?_⟩
  · intro c
    simp [missingColumns, List.mem_filter, Option.isNone_iff_eq_none]
  · intro hne
    simp [get_parameter_value, hne, hv, Bind.bind, Except.bind]

/-- C2 witness: `rowMissingDebug` lacks only `debugmode`, a field its
string coercion (`type_id` 1) would never read; validation still rejects
it, naming exactly that field. -/
theorem c2_missing_columns_witness :
    Row.new rowMissingDebug = .error (.missingColumn ["debugmode"]) ∧
    get_parameter_value rowMissingDebug
      = .error (.runtimeWrapped (.missingColumn ["debugmode"])) := by
  have h := c2_missing_columns rowMissingDebug (by decide)
  exact ⟨h.1, h.2.2 (by decide)⟩

/-! ### C3 -/

/-- C3: `parse_date` tries the date formats in the fixed order
day-month-year hour:minute:second, year-month-day hour:minute:second,
day-month-year, returning the result of the first format that parses;
`15-03-2024` and `2024-03-15 10:30:00` both parse successfully,
and a string matching no format fails, surfacing through `Row.value` for
`type_id` 8 as a value-conversion error naming the raw value. -/
theorem c3_date_formats :
    (∀ s d, strptime fmtDMY_HMS s = some d → parse_date s = some d) ∧
    (∀ s d, strptime fmtDMY_HMS s = none → strptime fmtYMD_HMS s = some d →
      parse_date s = some d) ∧
    (∀ s d, strptime fmtDMY_HMS s = none → strptime fmtYMD_HMS s = none →
      strptime fmtDMY s = some d → parse_date s = some d) ∧
    (∀ s, strptime fmtDMY_HMS s = none → strptime fmtYMD_HMS s = none →
      strptime fmtDMY s = none → parse_date s = none) ∧
    parse_date "15-03-2024" = some ⟨2024, 3, 15, 0, 0, 0⟩ ∧
    parse_date "2024-03-15 10:30:00" = some ⟨2024, 3, 15, 10, 30, 0⟩ ∧
    parse_date "not-a-date" = none ∧
    Row.value ⟨rowBadDate⟩
      = .error (.conversionFailed (.str "not-a-date") (.int 8)) := by
  refine ⟨?_, ?_, ?_, ?_, rfl, rfl, rfl, rfl⟩
  · intro s d h1
    simp [parse_date, date_formats, tryFormats, h1]
  · intro s d h1 h2
    simp [parse_date, date_formats, tryFormats, h1, h2]
  · intro s d h1 h2 h3
    simp [parse_date, date_formats, tryFormats, h1, h2, h3]
  · intro s h1 h2 h3
    simp [parse_date, date_formats, tryFormats, h1, h2, h3]

/-- C3 witness: the ISO datetime example goes through the second format
(after the first fails) and the date-only example through the third. -/
theorem c3_date_formats_witness :
    parse_date "2024-03-15 10:30:00" = some ⟨2024, 3, 15, 10, 30, 0⟩ ∧
    parse_date "15-03-2024" = some ⟨2024, 3, 15, 0, 0, 0⟩ := by
  constructor
  · exact c3_date_formats.2.1 "2024-03-15 10:30:00" ⟨2024, 3, 15, 10, 30, 0⟩ rfl rfl
  · exact c3_date_formats.2.2.1 "15-03-2024" ⟨2024, 3, 15, 0, 0, 0⟩ rfl rfl rfl

/-! ### C8 -/

/-- C8: when the named section is absent from an existing connection
parameter file, `load_config` fails with the section-missing error — but
when the file itself does not exist, `configparser` silently yields an
empty parser (its `read` skips unreadable files), so `load_config`
reports the same section-missing error instead of propagating a
file-not-found error: the `except FileNotFoundError` clause in the source
is unreachable. -/
theorem c8_load_config_missing_file :
    load_config [("database.ini", [("other", [("a", "b")])])] "database.ini" "postgresql"
      = .error (.sectionMissing "postgresql" "database.ini") ∧
    load_config [] "database.ini" "postgresql"
      = .error (.sectionMissing "postgresql" "database.ini") := ⟨rfl, rfl⟩

/-! ### C10 -/

/-- C10: for every environment, debug flag and ini-file path, `get_config`
with a `None` or empty application name returns the empty mapping with no
error and no database event, and `get_initial_values` likewise returns
`None` instead of failing. -/
theorem c10_empty_appname (env : Env) (dbg : Bool) (ini : String) :
    get_config env Option.none dbg ini = (.ok [], []) ∧
    get_config env (some "") dbg ini = (.ok [], []) ∧
    get_initial_values env Option.none dbg = (.ok Option.none, []) ∧
    get_initial_values env (some "") dbg = (.ok Option.none, []) :=
  ⟨rfl, rfl, rfl, rfl⟩

/-! ### C4 -/

/-- C4: for every environment (hence independently of the stored
application names) and every application name shorter than 5 characters,
both the pydantic validation and the whole facade construction fail with
the invalid-application-name error with an empty database-event trace —
no database call is attempted before the failure. -/
theorem c4_short_appname (env : Env) (appname : String)
    (debugging named_attributes : Bool) (ini_file : String)
    (h : appname.length < 5) :
    ConfigurationModel.validate env appname debugging ini_file
      = (.error .invalidAppName, []) ∧
    Configuration.build env appname debugging named_attributes ini_file
      = (.error .invalidAppName, []) := by
  have h1 : ConfigurationModel.validate env appname debugging ini_file
      = (.error .invalidAppName, []) := by
    unfold ConfigurationModel.validate
    rw [if_pos h]
  refine ⟨h1, ?_⟩
  unfold Configuration.build
  rw [h1]

/-- C4 witness: the 4-character name `kort` is rejected before any
database event, even in an environment that does not know it. -/
theorem c4_short_appname_witness :
    ConfigurationModel.validate envW "kort" false "database.ini"
      = (.error .invalidAppName, []) ∧
    Configuration.build envW "kort" false false "database.ini"
      = (.error .invalidAppName, []) :=
  c4_short_appname envW "kort" false false "database.ini" (by decide)

/-! ### C5 -/

/-- C5: for every application name of length at least 5 that is not among
the stored `id` values, validation fails with an unknown-application
error carrying the invalid name together with a sorted, duplicate-free
list holding exactly the distinct stored `id` values. -/
theorem c5_unknown_appname (env : Env) (appname ini_file : String) (debugging : Bool)
    (sec : IniSection) (ids : List PyVal) (ss : List String)
    (h5 : 5 ≤ appname.length)
    (hfs : load_config env.fs ini_file "postgresql" = .ok sec)
    (hconn : env.connectOk = true)
    (hids : collectIds env.db = .ok ids)
    (hall : allStrings ids.dedup = some ss)
    (hnotin : PyVal.str appname ∉ ids) :
    ConfigurationModel.validate env appname debugging ini_file
      = (.error (.unknownApp appname (sortStrings ss)),
         [DbEvent.openConn, DbEvent.query "public" "nkinitvalues" []]) ∧
    (sortStrings ss).Sorted (· ≤ ·) ∧
    (sortStrings ss).Nodup ∧
    (∀ s, s ∈ sortStrings ss ↔ PyVal.str s ∈ ids) := by
  have hlt : ¬appname.length < 5 := by omega
  have hga : get_unique_app_names env ini_file
      = (.ok ids.dedup, [DbEvent.openConn, DbEvent.query "public" "nkinitvalues" []]) := by
    unfold get_unique_app_names
    rw [hfs]
    dsimp only
    unfold connect
    rw [if_pos hconn]
    simp [select_with_conditions, hids]
  have hnotin2 : ¬PyVal.str appname ∈ ids.dedup := by
    simpa [List.mem_dedup] using hnotin
  refine ⟨?_, sortStrings_sorted ss, ?_, ?_⟩
  · unfold ConfigurationModel.validate
    rw [if_neg hlt, if_neg hlt, hga]
    dsimp only
    rw [if_neg hnotin2]
    unfold sortedDistinctIds
    rw [hall]
  · exact (sortStrings_perm ss).nodup_iff.mpr
      (allStrings_nodup ids.dedup ss hall (List.nodup_dedup ids))
  · intro s
    rw [(sortStrings_perm ss).mem_iff, allStrings_mem ids.dedup ss hall s,
      List.mem_dedup]

/-- C5 witness: `zzzzz` is unknown to `envIds`, whose table stores the
ids beta, alpha, beta; the error lists exactly alpha and beta, sorted. -/
theorem c5_unknown_appname_witness :
    ConfigurationModel.validate envIds "zzzzz" false "database.ini"
      = (.error (.unknownApp "zzzzz" (sortStrings ["alpha", "beta"])),
         [DbEvent.openConn, DbEvent.query "public" "nkinitvalues" []]) ∧
    ("alpha" ∈ sortStrings ["alpha", "beta"]
      ↔ PyVal.str "alpha" ∈ [PyVal.str "beta", PyVal.str "alpha", PyVal.str "beta"]) := by
  have h := c5_unknown_appname envIds "zzzzz" "database.ini" false
    [("host", "localhost"), ("dbname", "nk")]
    [PyVal.str "beta", PyVal.str "alpha", PyVal.str "beta"]
    ["alpha", "beta"] (by decide) rfl rfl rfl rfl (by decide)
  exact ⟨h.1, h.2.2.2 "alpha"⟩

/-! ### C9 -/

/-- `get_config` never emits a close event on any path. -/
theorem countClose_get_config (env : Env) (an : Option String) (dbg : Bool)
    (ini : String) : countClose (get_config env an dbg ini).2 = 0 := by
  unfold get_config
  rcases an with _ | an
  · rfl
  · dsimp only
    by_cases hlen : an.length > 0
    · rw [if_pos hlen]
      split
      · rfl
      · unfold connect
        by_cases hc : env.connectOk
        · rw [if_pos hc]
          dsimp only [select_with_conditions]
          split <;> rfl
        · rw [if_neg hc]
          rfl
    · rw [if_neg hlen]
      rfl

/-- `get_initial_values` never emits a close event on any path. -/
theorem countClose_get_initial_values (env : Env) (an : Option String)
    (dbg : Bool) : countClose (get_initial_values env an dbg).2 = 0 := by
  unfold get_initial_values
  rcases an with _ | an
  · rfl
  · dsimp only
    by_cases hlen : an.length > 0
    · rw [if_pos hlen]
      split
      · rfl
      · unfold connect
        by_cases hc : env.connectOk
        · rw [if_pos hc]
          dsimp only [select_with_conditions]
          split <;> rfl
        · rw [if_neg hc]
          rfl
    · rw [if_neg hlen]
      rfl

/-- `get_unique_app_names` never emits a close event on any path. -/
theorem countClose_get_unique_app_names (env : Env) (ini : String) :
    countClose (get_unique_app_names env ini).2 = 0 := by
  unfold get_unique_app_names
  split
  · rfl
  · unfold connect
    by_cases hc : env.connectOk
    · rw [if_pos hc]
      dsimp only [select_with_conditions]
      split <;> rfl
    · rw [if_neg hc]
      rfl

/-- C9 counterexample: a concrete successful `get_config` run opens a
connection and terminates without a single close event — the connection
is not released on this exit path. -/
theorem c9_open_without_close_counterexample :
    (get_config envW (some "appone") false "database.ini").2
      = [DbEvent.openConn, DbEvent.query "public" "nkinitvalues"
          [("id", PyVal.str "appone"), ("debugmode", PyVal.bool false)]] ∧
    countClose (get_config envW (some "appone") false "database.ini").2 = 0 :=
  ⟨rfl, rfl⟩

/-- C9 (amended): each of the three logical calls opens a fresh
connection per call when it reaches the database, but none of them ever
emits a close event on any path — success or failure: the source never
closes a connection, only cursors are scoped; release is left to
interpreter finalization. -/
theorem c9_no_close (env : Env) (an : Option String) (dbg : Bool) (ini : String) :
    countClose (get_config env an dbg ini).2 = 0 ∧
    countClose (get_initial_values env an dbg).2 = 0 ∧
    countClose (get_unique_app_names env ini).2 = 0 :=
  ⟨countClose_get_config env an dbg ini,
   countClose_get_initial_values env an dbg,
   countClose_get_unique_app_names env ini⟩

/-! ### C6 -/

/-- C6: when `get_config` succeeds, every name carried by a fetched row
appears as a key of the aggregated mapping, and each key maps to the
coerced value of the last fetched row carrying that name
(last-write-wins). -/
theorem c6_last_write_wins (env : Env) (an : String) (dbg : Bool) (ini : String)
    (m : List (PyVal × Value)) (tr : List DbEvent)
    (hlen : an.length > 0)
    (h : get_config env (some an) dbg ini = (.ok m, tr)) :
    (∀ r ∈ fetchedRows env an dbg, ∀ n, r.lookup "name" = some n →
      (dictLookup m n).isSome) ∧
    (∀ n, dictLookup m n
      = (lastNamed (fetchedRows env an dbg) n).bind
          (fun r => okValue (get_parameter_value r))) := by
  have hagg := get_config_ok_aggregate env an dbg ini m tr hlen h
  constructor
  · intro r hr n hname
    have hsome := lastNamed_isSome_of_mem (fetchedRows env an dbg) r n hr hname
    rcases hlast : lastNamed (fetchedRows env an dbg) n with _ | r'
    · rw [hlast] at hsome
      cases hsome
    · obtain ⟨v, hv⟩ := aggregate_ok_last (fetchedRows env an dbg) [] m hagg n r' hlast
      have hlk := aggregate_lookup (fetchedRows env an dbg) [] m hagg n
      rw [hlast] at hlk
      dsimp only at hlk
      rw [hlk, hv]
      rfl
  · intro n
    have hlk := aggregate_lookup (fetchedRows env an dbg) [] m hagg n
    rcases hlast : lastNamed (fetchedRows env an dbg) n with _ | r' <;>
      rw [hlast] at hlk <;> dsimp only at hlk <;> rw [hlk] <;> rfl

/-- C6 witness: in `envDup`, two rows named `p1` (values 1 then 2) are
fetched; the mapping holds the value of the last one. -/
theorem c6_last_write_wins_witness :
    dictLookup [(PyVal.str "p1", Value.int 2)] (PyVal.str "p1")
      = (lastNamed (fetchedRows envDup "appone" false) (PyVal.str "p1")).bind
          (fun r => okValue (get_parameter_value r)) := by
  have h := c6_last_write_wins envDup "appone" false "database.ini"
    [(PyVal.str "p1", Value.int 2)] trGet (by decide) rfl
  exact h.2 (PyVal.str "p1")

/-! ### C7 -/

/-- C7: after a successful facade construction, attribute lookup of a
name present in the aggregated mapping returns exactly its stored value,
which is the coerced value of the last fetched row with that name; lookup
of a name absent from the mapping fails with the attribute-not-found
error. -/
theorem c7_getattr (env : Env) (appname : String) (dbg nattr : Bool)
    (ini : String) (c : Configuration) (tr : List DbEvent)
    (h : Configuration.build env appname dbg nattr ini = (.ok c, tr)) :
    (∀ name v, dictLookup c.configs (.str name) = some v →
      c.getattr name = .ok v ∧
      ∃ r, lastNamed (fetchedRows env appname dbg) (.str name) = some r ∧
        get_parameter_value r = .ok v) ∧
    (∀ name, dictLookup c.configs (.str name) = none →
      c.getattr name = .error (.attributeNotFound name)) := by
  unfold Configuration.build at h
  rcases hv : ConfigurationModel.validate env appname dbg ini with ⟨res1, tr1⟩
  rw [hv] at h
  rcases res1 with e | vm
  · simp at h
  · dsimp only at h
    rcases hg : get_config env (some appname) dbg ini with ⟨res2, tr2⟩
    rw [hg] at h
    rcases res2 with e | cfg
    · simp at h
    · dsimp only at h
      simp only [Prod.mk.injEq, Except.ok.injEq] at h
      obtain ⟨hcfg, htr⟩ := h
      have hlen : appname.length > 0 := by
        by_contra hcon
        have h5 : appname.length < 5 := by omega
        unfold ConfigurationModel.validate at hv
        rw [if_pos h5] at hv
        simp at hv
      have hagg := get_config_ok_aggregate env appname dbg ini cfg tr2 hlen hg
      subst hcfg
      constructor
      · intro name v hlook
        dsimp only at hlook
        refine ⟨?_, ?_⟩
        · unfold Configuration.getattr
          dsimp only
          rw [hlook]
        · have hlk := aggregate_lookup (fetchedRows env appname dbg) [] cfg hagg
            (.str name)
          rcases hlast : lastNamed (fetchedRows env appname dbg) (.str name)
            with _ | r' <;> rw [hlast] at hlk <;> dsimp only at hlk
          · rw [hlk] at hlook
            exact Option.noConfusion hlook
          · rw [hlk] at hlook
            rcases hgv : get_parameter_value r' with e | w <;> rw [hgv] at hlook
            · simp [okValue] at hlook
            · simp only [okValue, Option.some.injEq] at hlook
              subst hlook
              exact ⟨r', rfl, hgv⟩
      · intro name hlook
        dsimp only at hlook
        unfold Configuration.getattr
        dsimp only
        rw [hlook]

/-- C7 witness: in the facade built from `envW`, the stored name `p1`
reads back its coerced value 42 and an absent name raises. -/
theorem c7_getattr_witness :
    Configuration.getattr cW "p1" = .ok (Value.int 42) ∧
    Configuration.getattr cW "missing" = .error (.attributeNotFound "missing") := by
  have h := c7_getattr envW "appone" false false "database.ini" cW trBuild rfl
  exact ⟨(h.1 "p1" (Value.int 42) rfl).1, h.2 "missing" rfl⟩

end ConfigHandler
